import Mathlib

/-!
Verification of the Douyin download plugin (src/dist/index.js, enhanced
version).  The JavaScript is shallowly embedded: network effects (fetch
outcomes, redirect outcomes, the clock) are explicit oracle parameters, JS
truthiness on optional string/number fields is modelled by explicit helper
functions, and strings are modelled by their character lists.
-/

set_option maxRecDepth 100000

namespace GopeedDouyin

/-- JS truthiness of an optional string field: undefined and the empty
string are falsy, every other string is truthy. -/
def truthy : Option String → Bool
  | none => false
  | some s => !s.isEmpty

/-- JS expression a OR d for an optional string a and string default d. -/
def jsOrStr : Option String → String → String
  | none, d => d
  | some s, d => if s.isEmpty then d else s

/-- JS expression a OR b for two optional strings (the value of the whole
expression is b whenever a is falsy, even when b is also falsy). -/
def jsOrO : Option String → Option String → Option String
  | a, b => if truthy a then a else b

/-- JS expression a OR d for an optional number a (undefined and 0 falsy). -/
def jsOrNat : Option Nat → Nat → Nat
  | none, d => d
  | some n, d => if n = 0 then d else n

/-! ## sanitizeFilename (src/dist/index.js lines 497-503)

JS source:
  filename.replace to underscore the characters in the illegal class,
  then replace each whitespace run by one space, then trim,
  then substring from 0 to 200.
-/

/-- The character class replaced by an underscore in sanitizeFilename. -/
def illegalChar (c : Char) : Bool :=
  c == '<' || c == '>' || c == ':' || c == '"' || c == '/' || c == '\\' ||
  c == '|' || c == '?' || c == '*'

/-- The JS regular-expression whitespace class (also the set trimmed by
String.prototype.trim). -/
def jsWs (c : Char) : Bool :=
  c == ' ' || c == '\t' || c == '\n' || c == '\r' || c == '\u000B' || c == '\u000C' ||
  c == '\u00A0' || c == '\u1680' || ('\u2000' ≤ c && c ≤ '\u200A') ||
  c == '\u2028' || c == '\u2029' || c == '\u202F' || c == '\u205F' ||
  c == '\u3000' || c == '\uFEFF'

/-- First replace call: every illegal character becomes an underscore. -/
def replaceIllegal (l : List Char) : List Char :=
  l.map (fun c => if illegalChar c then '_' else c)

/-- Second replace call, scanning left to right: a maximal whitespace run
is emitted as a single space.  The flag records whether the previous input
character was whitespace (i.e. whether we are inside a run). -/
def collapseWsGo : Bool → List Char → List Char
  | _, [] => []
  | prevWs, c :: rest =>
    if jsWs c then
      if prevWs then collapseWsGo true rest
      else ' ' :: collapseWsGo true rest
    else c :: collapseWsGo false rest

/-- The whole second replace call. -/
def collapseWs (l : List Char) : List Char := collapseWsGo false l

/-- Removal of trailing whitespace (the right half of trim). -/
def trimEndJs : List Char → List Char
  | [] => []
  | c :: rest =>
    match trimEndJs rest with
    | [] => if jsWs c then [] else [c]
    | x :: xs => c :: x :: xs

/-- JS String.prototype.trim: whitespace removed from both ends. -/
def jsTrim (l : List Char) : List Char := trimEndJs (l.dropWhile jsWs)

/-- sanitizeFilename from the source: underscore illegal characters,
collapse whitespace runs, trim, then keep the first 200 characters. -/
def sanitizeFilename (s : String) : String :=
  String.mk ((jsTrim (collapseWs (replaceIllegal s.toList))).take 200)

/-- No two adjacent characters are both whitespace. -/
def noAdjWs : List Char → Bool
  | [] => true
  | [_] => true
  | a :: b :: rest => !(jsWs a && jsWs b) && noAdjWs (b :: rest)

/-! ## Data model -/

/-- The headers mapping of one download request. -/
structure ReqInfo where
  url : String
  headers : List (String × String)
deriving DecidableEq

/-- One entry of the files array returned to the host. -/
structure FileDescriptor where
  name : String
  size : Nat
  req : ReqInfo
deriving DecidableEq

/-- The extra metadata object of the manifest. -/
structure Extra where
  cover : Option String
  author : String
  duration : Option Nat
  platform : String
  type : String
deriving DecidableEq

/-- The manifest object returned to the host on success. -/
structure DownloadManifest where
  name : String
  files : List FileDescriptor
  extra : Extra
deriving DecidableEq

/-- The intermediate result produced by a source adapter and post-processed
by the content-type routing.  Absent JS object fields are none / false. -/
structure IntermediateResult where
  title : Option String := none
  downloadUrl : Option String := none
  cover : Option String := none
  author : String := ""
  duration : Option Nat := none
  filename : Option String := none
  images : Option (List String) := none
  type : Option String := none
  multipleFiles : Bool := false
  size : Option Nat := none
deriving DecidableEq

/-- The recognized plugin settings (apiEndpoint is only read by the legacy
entry point, which the claims do not target). -/
structure Settings where
  timeout : Option Nat := none
  downloadType : Option String := none
deriving DecidableEq

/-- getVideoHeaders from the source. -/
def getVideoHeaders : List (String × String) :=
  [("User-Agent", "Mozilla/5.0 (iPhone; CPU iPhone OS 15_0 like Mac OS X) AppleWebKit/605.1.15 (KHTML, like Gecko) Version/15.0 Mobile/15E148 Safari/604.1"),
   ("Referer", "https://www.douyin.com/"),
   ("Accept", "video/mp4,video/webm,video/*;q=0.9,*/*;q=0.8"),
   ("Accept-Language", "zh-CN,zh;q=0.9,en;q=0.8"),
   ("Range", "bytes=0-")]

/-- getImageHeaders from the source. -/
def getImageHeaders : List (String × String) :=
  [("User-Agent", "Mozilla/5.0 (iPhone; CPU iPhone OS 15_0 like Mac OS X) AppleWebKit/605.1.15 (KHTML, like Gecko) Version/15.0 Mobile/15E148 Safari/604.1"),
   ("Referer", "https://www.douyin.com/"),
   ("Accept", "image/webp,image/apng,image/*,*/*;q=0.8")]

/-! ## Link classifier (identifyLinkType, lines 166-184) -/

/-- The regular-expression word-character class (letters, digits,
underscore). -/
def wordChar (c : Char) : Bool :=
  ('a' ≤ c && c ≤ 'z') || ('A' ≤ c && c ≤ 'Z') || ('0' ≤ c && c ≤ '9') || c == '_'

/-- Does the second list start with the first one? -/
def startsWithL : List Char → List Char → Bool
  | [], _ => true
  | _ :: _, [] => false
  | a :: as, b :: bs => a == b && startsWithL as bs

/-- Does the list start with the literal followed by one character of the
class?  Models an anchored match of a pattern of the form literal then a
one-or-more character class (one repetition suffices for a test). -/
def litThenClassAt (lit : List Char) (cls : Char → Bool) : List Char → Bool
  | t =>
    match lit, t with
    | [], [] => false
    | [], c :: _ => cls c
    | _ :: _, [] => false
    | a :: as, c :: cs => a == c && litThenClassAt as cls cs

/-- Unanchored regular-expression test: the anchored check holds at some
suffix of the subject. -/
def scanMatch (p : List Char → Bool) : List Char → Bool
  | [] => p []
  | c :: rest => p (c :: rest) || scanMatch p rest

/-- JS String.prototype.includes. -/
def strIncludes (hay needle : String) : Bool :=
  scanMatch (startsWithL needle.toList) hay.toList

/-- The link types of the source's patterns table, plus unknown. -/
inductive LinkType where
  | short | video | note | user | discover | share | ies | unknown
deriving DecidableEq

/-- Test of the short pattern: v.douyin.com slash word characters. -/
def shortPattern (s : String) : Bool :=
  scanMatch (litThenClassAt "v.douyin.com/".toList wordChar) s.toList

/-- Test of the video pattern: douyin.com/video/ then word characters. -/
def videoPattern (s : String) : Bool :=
  scanMatch (litThenClassAt "douyin.com/video/".toList wordChar) s.toList

/-- Test of the note pattern: douyin.com/note/ then word characters. -/
def notePattern (s : String) : Bool :=
  scanMatch (litThenClassAt "douyin.com/note/".toList wordChar) s.toList

/-- Test of the user pattern: douyin.com/user/ then word or hyphen
characters. -/
def userPattern (s : String) : Bool :=
  scanMatch (litThenClassAt "douyin.com/user/".toList (fun c => wordChar c || c == '-')) s.toList

/-- Test of the discover pattern: the literal douyin.com/discover. -/
def discoverPattern (s : String) : Bool :=
  scanMatch (startsWithL "douyin.com/discover".toList) s.toList

/-- Test of the share pattern: douyin.com/share/ then word characters. -/
def sharePattern (s : String) : Bool :=
  scanMatch (litThenClassAt "douyin.com/share/".toList wordChar) s.toList

/-- Test of the ies pattern: the literal iesdouyin.com. -/
def iesPattern (s : String) : Bool :=
  scanMatch (startsWithL "iesdouyin.com".toList) s.toList

/-- The patterns object of identifyLinkType, in insertion order. -/
def linkPatterns : List (LinkType × (String → Bool)) :=
  [(LinkType.short, shortPattern), (LinkType.video, videoPattern),
   (LinkType.note, notePattern), (LinkType.user, userPattern),
   (LinkType.discover, discoverPattern), (LinkType.share, sharePattern),
   (LinkType.ies, iesPattern)]

/-- The for-of loop over the patterns: first matching entry wins. -/
def firstMatchType : List (LinkType × (String → Bool)) → String → LinkType
  | [], _ => LinkType.unknown
  | (t, p) :: rest, url => if p url then t else firstMatchType rest url

/-- identifyLinkType from the source. -/
def identifyLinkType (url : String) : LinkType :=
  firstMatchType linkPatterns url

/-! ## Redirect resolver (resolveRedirect, lines 189-213)

The network effect is an oracle: either the HEAD request reaches a final
URL, or it fails (error/timeout).  The returned flag records whether a
network request was issued at all. -/

/-- Outcome of the redirect-following HEAD request, had one been made. -/
inductive RedirectOutcome where
  | success (finalUrl : String)
  | failure (msg : String)
deriving DecidableEq

/-- resolveRedirect from the source: a non-short-form URL is returned
unchanged without touching the network; otherwise the final URL is
returned on success and the original URL on any error, never throwing. -/
def resolveRedirect (url : String) (ro : RedirectOutcome) : String × Bool :=
  if !(strIncludes url "v.douyin.com") then (url, false)
  else
    match ro with
    | RedirectOutcome.success fu => (fu, true)
    | RedirectOutcome.failure _ => (url, true)

/-! ## Source adapters (lines 350-492)

Each adapter's fetch is an oracle: a network error, or a response with an
HTTP status and the JSON fields the adapters probe.  Date.now() is the
oracle parameter now. -/

/-- The JSON fields probed by the three adapters; absent fields are none. -/
structure JsonData where
  nwm_video_url : Option String := none
  cover_url : Option String := none
  desc : Option String := none
  title : Option String := none
  url : Option String := none
  videoUrl : Option String := none
  cover : Option String := none
  coverUrl : Option String := none
  authorNickname : Option String := none
  nickname : Option String := none
  author : Option String := none
  duration : Option Nat := none
  images : Option (List String) := none
  code : Option Nat := none
deriving DecidableEq

/-- Outcome of one adapter's fetch call. -/
inductive FetchOutcome where
  | netError (msg : String)
  | response (status : Nat) (data : JsonData)
deriving DecidableEq

/-- fetch response.ok: status in the 200-299 range. -/
def httpOk (status : Nat) : Bool := 200 ≤ status && status ≤ 299

/-- parseWithDouyinWTF from the source: accepts a video answer (field
nwm_video_url) or a gallery answer (non-empty images array). -/
def parseWithDouyinWTF (now : Nat) (f : FetchOutcome) : Except String IntermediateResult :=
  match f with
  | FetchOutcome.netError e => Except.error e
  | FetchOutcome.response status data =>
    if !httpOk status then Except.error (s!"douyin.wtf API HTTP {status}")
    else if truthy data.nwm_video_url then
      Except.ok
        { title := some (jsOrStr data.desc "抖音视频"),
          downloadUrl := data.nwm_video_url,
          cover := data.cover_url,
          author := jsOrStr data.authorNickname (jsOrStr data.nickname ""),
          duration := some (jsOrNat data.duration 0),
          filename := some (s!"douyin_{now}.mp4") }
    else if data.images.isSome && (data.images.getD []).length > 0 then
      Except.ok
        { title := some (jsOrStr data.desc "抖音图文"),
          images := data.images,
          author := jsOrStr data.authorNickname (jsOrStr data.nickname ""),
          filename := some (s!"douyin_note_{now}") }
    else Except.error "douyin.wtf返回数据格式异常"

/-- parseWithJiexiTop from the source: accepts a url or videoUrl field. -/
def parseWithJiexiTop (now : Nat) (f : FetchOutcome) : Except String IntermediateResult :=
  match f with
  | FetchOutcome.netError e => Except.error e
  | FetchOutcome.response status data =>
    if !httpOk status then Except.error (s!"jiexi.top API HTTP {status}")
    else if truthy data.url || truthy data.videoUrl then
      Except.ok
        { title := some (jsOrStr data.title (jsOrStr data.desc "抖音视频")),
          downloadUrl := jsOrO data.url data.videoUrl,
          cover := jsOrO data.cover data.coverUrl,
          author := jsOrStr data.author (jsOrStr data.nickname ""),
          duration := some (jsOrNat data.duration 0),
          filename := some (s!"douyin_{now}.mp4") }
    else Except.error "jiexi.top返回数据格式异常"

/-- parseWithTenAPI from the source: accepts code strictly equal to 200
together with a truthy url field. -/
def parseWithTenAPI (now : Nat) (f : FetchOutcome) : Except String IntermediateResult :=
  match f with
  | FetchOutcome.netError e => Except.error e
  | FetchOutcome.response status data =>
    if !httpOk status then Except.error (s!"tenapi.cn API HTTP {status}")
    else if data.code == some 200 && truthy data.url then
      Except.ok
        { title := some (jsOrStr data.title "抖音视频"),
          downloadUrl := data.url,
          cover := some (jsOrStr data.cover ""),
          author := jsOrStr data.author "",
          duration := some 0,
          filename := some (s!"douyin_{now}.mp4") }
    else Except.error "tenapi.cn返回数据格式异常"

/-! ## Fallback orchestrator (parseWithFallback, lines 324-345) -/

/-- The orchestrator's acceptance test on a returned result: a truthy
downloadUrl or an images field holding an array. -/
def validResult (r : IntermediateResult) : Bool :=
  truthy r.downloadUrl || r.images.isSome

/-- One iteration of the fallback loop: on a valid result return it (one
adapter invoked); on an error or an invalid result fall through to the
rest of the chain (one more adapter invoked than the rest reports). -/
def fallbackStep (p : FetchOutcome → Except String IntermediateResult)
    (f : FetchOutcome) (rest : Except String IntermediateResult × Nat) :
    Except String IntermediateResult × Nat :=
  match p f with
  | Except.ok r => if validResult r then (Except.ok r, 1) else (rest.1, rest.2 + 1)
  | Except.error _ => (rest.1, rest.2 + 1)

/-- parseWithFallback from the source: the three adapters tried strictly
in order, the error of the empty chain being the aggregated failure.  The
second component counts the adapters actually invoked. -/
def parseWithFallback (now : Nat) (f1 f2 f3 : FetchOutcome) :
    Except String IntermediateResult × Nat :=
  fallbackStep (parseWithDouyinWTF now) f1
    (fallbackStep (parseWithJiexiTop now) f2
      (fallbackStep (parseWithTenAPI now) f3
        (Except.error "所有解析源都失败了", 0)))

/-! ## Content-type routing, file-list builder and entry point -/

/-- Gallery image descriptors, one per image in list order with a 1-based
index in the name (the forEach in buildDownloadFiles). -/
def imageFiles (now : Nat) : Nat → List String → List FileDescriptor
  | _, [] => []
  | idx, u :: rest =>
    { name := sanitizeFilename (s!"image_{idx + 1}_{now}.jpg"),
      size := 0,
      req := { url := u, headers := getImageHeaders } } :: imageFiles now (idx + 1) rest

/-- buildDownloadFiles from the source (lines 253-295): the video rule,
the cover rule and the gallery rule applied in this order; the first two
are gated by the download mode, the third only by the multi-file flag. -/
def buildDownloadFiles (now : Nat) (parseResult : IntermediateResult)
    (downloadType : String) : List FileDescriptor :=
  (if (downloadType == "video" || downloadType == "both") && truthy parseResult.downloadUrl then
    [{ name := sanitizeFilename (jsOrStr parseResult.filename (s!"douyin_video_{now}.mp4")),
       size := jsOrNat parseResult.size 0,
       req := { url := parseResult.downloadUrl.getD "", headers := getVideoHeaders } }]
   else []) ++
  (if (downloadType == "cover" || downloadType == "both") && truthy parseResult.cover then
    [{ name := sanitizeFilename (s!"cover_{now}.jpg"),
       size := 0,
       req := { url := parseResult.cover.getD "", headers := getImageHeaders } }]
   else []) ++
  (if parseResult.multipleFiles && parseResult.images.isSome then
    imageFiles now 0 (parseResult.images.getD [])
   else [])

/-- The post-processing of parseNoteLink on a successful result: tag as a
note and mark multi-file when an images array is present. -/
def noteRoute (r : IntermediateResult) : IntermediateResult :=
  let r1 := { r with type := some "note" }
  if r1.images.isSome then { r1 with multipleFiles := true } else r1

/-- The oracle inputs of one invocation: the redirect outcome, the three
adapters' fetch outcomes, and the clock. -/
structure Env where
  redirect : RedirectOutcome
  f1 : FetchOutcome
  f2 : FetchOutcome
  f3 : FetchOutcome
  now : Nat
deriving DecidableEq

/-- parseVideoLink from the source: fallback resolution tagged as video. -/
def parseVideoLink (_url : String) (env : Env) : Except String IntermediateResult × Nat :=
  let st := parseWithFallback env.now env.f1 env.f2 env.f3
  (st.1.map (fun r => { r with type := some "video" }), st.2)

/-- parseNoteLink from the source: fallback resolution tagged as note,
marked multi-file when an images array is present. -/
def parseNoteLink (_url : String) (env : Env) : Except String IntermediateResult × Nat :=
  let st := parseWithFallback env.now env.f1 env.f2 env.f3
  (st.1.map noteRoute, st.2)

/-- parseUserLink from the source: unconditional failure, no adapter
invoked. -/
def parseUserLink (_url : String) (_env : Env) : Except String IntermediateResult × Nat :=
  (Except.error "用户主页链接暂不支持批量下载，请提供具体视频链接", 0)

/-- The switch of the entry point: short and video links, and any
unrecognized type, go to parseVideoLink; note links to parseNoteLink; user
links to parseUserLink.  The redirect is resolved first. -/
def routeStep (url : String) (env : Env) : Except String IntermediateResult × Nat :=
  let finalUrl := (resolveRedirect url env.redirect).1
  match identifyLinkType url with
  | LinkType.short => parseVideoLink finalUrl env
  | LinkType.video => parseVideoLink finalUrl env
  | LinkType.note => parseNoteLink finalUrl env
  | LinkType.user => parseUserLink finalUrl env
  | _ => parseVideoLink finalUrl env

/-- The enhanced entry point (lines 102-161): classify, resolve the
redirect, route, build the file list, assemble the manifest; any thrown
error is wrapped with the pipeline prefix.  The second component counts
the adapters invoked. -/
def entryPoint (url : String) (st : Settings) (env : Env) :
    Except String DownloadManifest × Nat :=
  let downloadType := jsOrStr st.downloadType "video"
  match routeStep url env with
  | (Except.error e, n) => (Except.error (String.append "抖音解析失败: " e), n)
  | (Except.ok r, n) =>
    let files := buildDownloadFiles env.now r downloadType
    (Except.ok
      { name := jsOrStr r.title (s!"抖音内容_{env.now}"),
        files := files,
        extra :=
          { cover := r.cover, author := r.author, duration := r.duration,
            platform := "douyin", type := jsOrStr r.type "video" } }, n)

/-! ## Concrete instances used by witnesses and counterexamples -/

/-- An oracle environment where every network interaction fails. -/
def failEnv : Env :=
  { redirect := RedirectOutcome.failure "x", f1 := FetchOutcome.netError "x",
    f2 := FetchOutcome.netError "x", f3 := FetchOutcome.netError "x", now := 0 }

/-- An environment where the primary adapter answers a plain video with no
cover and both backups are down. -/
def videoOnlyEnv : Env :=
  { redirect := RedirectOutcome.failure "x",
    f1 := FetchOutcome.response 200 { nwm_video_url := some "https://cdn/x.mp4" },
    f2 := FetchOutcome.netError "x", f3 := FetchOutcome.netError "x", now := 0 }

/-- A routed gallery result: one image, no download URL, no cover. -/
def galleryResult : IntermediateResult :=
  { title := some "抖音图文", images := some ["https://p1.example/a.jpg"],
    multipleFiles := true, filename := some "douyin_note_0" }

/-- A result carrying a download URL, a cover and a gallery marked
multi-file all at once. -/
def fullGalleryResult : IntermediateResult :=
  { downloadUrl := some "https://cdn/x.mp4", cover := some "https://cdn/x.jpg",
    images := some ["https://cdn/i1.jpg"], multipleFiles := true }

/-- A result with a download URL and a cover and nothing else. -/
def videoCoverResult : IntermediateResult :=
  { downloadUrl := some "https://cdn/x.mp4", cover := some "https://cdn/x.jpg" }

/-- A result with only a download URL. -/
def videoOnlyResult : IntermediateResult :=
  { downloadUrl := some "https://cdn/x.mp4" }

/-- An adapter result as returned for a three-image note. -/
def noteResult : IntermediateResult :=
  { images := some ["a.jpg", "b.jpg", "c.jpg"] }

/-- A fetch answer of the first backup adapter carrying only a url field. -/
def jiexiFetch : FetchOutcome :=
  FetchOutcome.response 200 { url := some "https://cdn/y.mp4" }

/-- The intermediate result the first backup adapter builds from
jiexiFetch at time 7. -/
def jiexiResult : IntermediateResult :=
  { title := some "抖音视频", downloadUrl := some "https://cdn/y.mp4",
    author := "", duration := some 0, filename := some "douyin_7.mp4" }

/-- 199 letters, a space and one more letter: trimming happens before the
truncation to 200 characters, so the truncation exposes the space. -/
def truncCexInput : String := String.mk (List.replicate 199 'a' ++ [' ', 'b'])

/-! ## Helper lemmas about the builder -/

theorem imageFiles_length (now : Nat) : ∀ (idx : Nat) (l : List String),
    (imageFiles now idx l).length = l.length := by
  intro idx l
  induction l generalizing idx with
  | nil => rfl
  | cons u rest ih => simp [imageFiles, ih]

theorem imageFiles_map_url (now : Nat) : ∀ (idx : Nat) (l : List String),
    (imageFiles now idx l).map (fun f => f.req.url) = l := by
  intro idx l
  induction l generalizing idx with
  | nil => rfl
  | cons u rest ih => simp [imageFiles, ih]

theorem imageFiles_map_name (now : Nat) : ∀ (idx : Nat) (l : List String),
    (imageFiles now idx l).map (fun f => f.name) =
      (List.range l.length).map
        (fun i => sanitizeFilename (s!"image_{idx + i + 1}_{now}.jpg")) := by
  intro idx l
  induction l generalizing idx with
  | nil => rfl
  | cons u rest ih =>
    rw [List.length_cons, List.range_succ_eq_map]
    simp only [imageFiles, List.map_cons, List.map_map]
    congr 1
    · rw [ih (idx + 1)]
      refine List.map_congr_left ?_
      intro a _
      simp only [Function.comp_apply]
      have h : idx + 1 + a + 1 = idx + (a + 1) + 1 := by omega
      rw [h]

theorem noteRoute_downloadUrl (r : IntermediateResult) :
    (noteRoute r).downloadUrl = r.downloadUrl := by
  cases h : r.images <;> simp [noteRoute, h]

theorem noteRoute_images (r : IntermediateResult) :
    (noteRoute r).images = r.images := by
  cases h : r.images <;> simp [noteRoute, h]

theorem noteRoute_multipleFiles_of_images (r : IntermediateResult) (l : List String)
    (h : r.images = some l) : (noteRoute r).multipleFiles = true := by
  unfold noteRoute
  simp [h]

/-! ## Claim theorems about the builder (C3, C7, C8, C10) -/

/-- Claim C3 counterexample: a gallery result whose cover is absent, built
in cover mode, yields its image descriptor rather than the empty sequence
the claim asserts for every cover-less result. -/
theorem build_cover_mode_nonempty_cex :
    galleryResult.cover = none ∧ buildDownloadFiles 0 galleryResult "cover" ≠ [] := by
  constructor
  · rfl
  · decide

/-- Claim C3 (amended): for every intermediate result whose cover is
absent and that is not marked multi-file with an image list, the builder
in cover mode returns the empty sequence (and, being a total function,
raises no error). -/
theorem build_cover_mode_empty (now : Nat) (r : IntermediateResult)
    (h1 : truthy r.cover = false) (h2 : (r.multipleFiles && r.images.isSome) = false) :
    buildDownloadFiles now r "cover" = [] := by
  have hv : ((("cover" : String) == "video") || (("cover" : String) == "both")) = false := by decide
  simp [buildDownloadFiles, hv, h1, h2]

/-- Claim C3 witness: a result with only a download URL yields nothing in
cover mode. -/
theorem build_cover_mode_empty_witness :
    buildDownloadFiles 4 videoOnlyResult "cover" = [] :=
  build_cover_mode_empty 4 videoOnlyResult (by decide) (by decide)

/-- Claim C7 counterexample: a result having both a download URL and a
cover but also a multi-file image list yields three descriptors in both
mode, not the two the claim asserts for every such result. -/
theorem build_both_three_cex :
    truthy fullGalleryResult.downloadUrl = true ∧
    truthy fullGalleryResult.cover = true ∧
    (buildDownloadFiles 0 fullGalleryResult "both").length = 3 := by decide

/-- Claim C7 (amended): for every intermediate result having both a
download URL and a cover URL and not marked multi-file with an image
list, both mode yields exactly two descriptors, the video descriptor
(video headers, the download URL) first and the cover descriptor (image
headers, the cover URL) second. -/
theorem build_both_video_first (now : Nat) (r : IntermediateResult)
    (h1 : truthy r.downloadUrl = true) (h2 : truthy r.cover = true)
    (h3 : (r.multipleFiles && r.images.isSome) = false) :
    ∃ fv fc, buildDownloadFiles now r "both" = [fv, fc] ∧
      fv.req.url = r.downloadUrl.getD "" ∧ fv.req.headers = getVideoHeaders ∧
      fc.req.url = r.cover.getD "" ∧ fc.req.headers = getImageHeaders := by
  refine ⟨{ name := sanitizeFilename (jsOrStr r.filename (s!"douyin_video_{now}.mp4")),
            size := jsOrNat r.size 0,
            req := { url := r.downloadUrl.getD "", headers := getVideoHeaders } },
          { name := sanitizeFilename (s!"cover_{now}.jpg"), size := 0,
            req := { url := r.cover.getD "", headers := getImageHeaders } },
          ?_, rfl, rfl, rfl, rfl⟩
  have hv : ((("both" : String) == "video") || (("both" : String) == "both")) = true := by decide
  have hc : ((("both" : String) == "cover") || (("both" : String) == "both")) = true := by decide
  simp [buildDownloadFiles, hv, hc, h1, h2, h3]

/-- Claim C7 witness: a plain video-with-cover result in both mode. -/
theorem build_both_video_first_witness :
    ∃ fv fc, buildDownloadFiles 2 videoCoverResult "both" = [fv, fc] ∧
      fv.req.url = videoCoverResult.downloadUrl.getD "" ∧ fv.req.headers = getVideoHeaders ∧
      fc.req.url = videoCoverResult.cover.getD "" ∧ fc.req.headers = getImageHeaders :=
  build_both_video_first 2 videoCoverResult (by decide) (by decide) (by decide)

/-- Claim C8: a note-routed result carrying an image list and no download
URL, built in the default video mode, yields exactly one descriptor per
image, in list order, named with a 1-based index. -/
theorem note_gallery_build (now : Nat) (r : IntermediateResult) (l : List String)
    (h1 : r.images = some l) (h2 : truthy r.downloadUrl = false) :
    (buildDownloadFiles now (noteRoute r) "video").length = l.length ∧
    (buildDownloadFiles now (noteRoute r) "video").map (fun f => f.req.url) = l ∧
    (buildDownloadFiles now (noteRoute r) "video").map (fun f => f.name) =
      (List.range l.length).map (fun i => sanitizeFilename (s!"image_{i + 1}_{now}.jpg")) := by
  have hv : ((("video" : String) == "video") || (("video" : String) == "both")) = true := by decide
  have hc : ((("video" : String) == "cover") || (("video" : String) == "both")) = false := by decide
  have hd : truthy (noteRoute r).downloadUrl = false := by
    rw [noteRoute_downloadUrl]; exact h2
  have hm : (noteRoute r).multipleFiles = true := noteRoute_multipleFiles_of_images r l h1
  have hi : (noteRoute r).images = some l := by rw [noteRoute_images]; exact h1
  have hb : buildDownloadFiles now (noteRoute r) "video" = imageFiles now 0 l := by
    simp [buildDownloadFiles, hv, hc, hd, hm, hi]
  rw [hb]
  refine ⟨imageFiles_length now 0 l, imageFiles_map_url now 0 l, ?_⟩
  have h := imageFiles_map_name now 0 l
  simpa using h

/-- Claim C8 witness: three images a, b, c yield three descriptors in
order with 1-based names. -/
theorem note_gallery_build_witness :
    (buildDownloadFiles 5 (noteRoute noteResult) "video").length = 3 ∧
    (buildDownloadFiles 5 (noteRoute noteResult) "video").map (fun f => f.req.url) =
      ["a.jpg", "b.jpg", "c.jpg"] ∧
    (buildDownloadFiles 5 (noteRoute noteResult) "video").map (fun f => f.name) =
      ["image_1_5.jpg", "image_2_5.jpg", "image_3_5.jpg"] := by
  have h := note_gallery_build 5 noteResult ["a.jpg", "b.jpg", "c.jpg"] rfl (by decide)
  refine ⟨h.1, h.2.1, ?_⟩
  rw [h.2.2]
  decide

/-- Claim C10: the download mode gates only the video and cover rules;
every result marked multi-file with an image list contributes one
descriptor per image, after at most two mode-gated descriptors, whatever
the mode is. -/
theorem gallery_images_all_modes (now : Nat) (r : IntermediateResult) (mode : String)
    (l : List String) (h1 : r.multipleFiles = true) (h2 : r.images = some l) :
    ∃ pre, buildDownloadFiles now r mode = pre ++ imageFiles now 0 l ∧
      pre.length ≤ 2 ∧
      (imageFiles now 0 l).map (fun f => f.req.url) = l ∧
      (imageFiles now 0 l).length = l.length := by
  have h3 : (r.multipleFiles && r.images.isSome) = true := by simp [h1, h2]
  have h4 : r.images.getD [] = l := by simp [h2]
  refine ⟨(if (mode == "video" || mode == "both") && truthy r.downloadUrl then
      [{ name := sanitizeFilename (jsOrStr r.filename (s!"douyin_video_{now}.mp4")),
         size := jsOrNat r.size 0,
         req := { url := r.downloadUrl.getD "", headers := getVideoHeaders } }] else []) ++
    (if (mode == "cover" || mode == "both") && truthy r.cover then
      [{ name := sanitizeFilename (s!"cover_{now}.jpg"), size := 0,
         req := { url := r.cover.getD "", headers := getImageHeaders } }] else []),
    ?_, ?_, imageFiles_map_url now 0 l, imageFiles_length now 0 l⟩
  · unfold buildDownloadFiles
    rw [h3, h4]
    simp [List.append_assoc]
  · rw [List.length_append]
    split <;> split <;> simp

/-- Claim C10 witness: the gallery result still yields its image
descriptor in cover-only mode. -/
theorem gallery_images_all_modes_witness :
    ∃ pre, buildDownloadFiles 0 galleryResult "cover" =
        pre ++ imageFiles 0 0 ["https://p1.example/a.jpg"] ∧
      pre.length ≤ 2 ∧
      (imageFiles 0 0 ["https://p1.example/a.jpg"]).map (fun f => f.req.url) =
        ["https://p1.example/a.jpg"] ∧
      (imageFiles 0 0 ["https://p1.example/a.jpg"]).length =
        (["https://p1.example/a.jpg"] : List String).length :=
  gallery_images_all_modes 0 galleryResult "cover" ["https://p1.example/a.jpg"] rfl rfl

/-! ## Helper lemmas about the adapters and the orchestrator -/

theorem parseWithDouyinWTF_ok_valid (now : Nat) (f : FetchOutcome)
    (r : IntermediateResult) (h : parseWithDouyinWTF now f = Except.ok r) :
    validResult r = true := by
  cases f with
  | netError e => simp [parseWithDouyinWTF] at h
  | response status data =>
    simp only [parseWithDouyinWTF] at h
    split_ifs at h with h1 h2 h3
    · cases h
      simp [validResult, truthy] at h2 ⊢
      simp [h2]
    · cases h
      simp only [validResult, Bool.or_eq_true]
      right
      exact (Bool.and_eq_true _ _ |>.mp h3).1

theorem parseWithJiexiTop_ok_valid (now : Nat) (f : FetchOutcome)
    (r : IntermediateResult) (h : parseWithJiexiTop now f = Except.ok r) :
    validResult r = true := by
  cases f with
  | netError e => simp [parseWithJiexiTop] at h
  | response status data =>
    simp only [parseWithJiexiTop] at h
    split_ifs at h with h1 h2
    cases h
    simp only [validResult, Bool.or_eq_true]
    left
    rcases Bool.or_eq_true _ _ |>.mp h2 with hu | hv
    · simp [jsOrO, hu]
    · simp only [jsOrO]
      split
      · assumption
      · exact hv

theorem parseWithTenAPI_ok_valid (now : Nat) (f : FetchOutcome)
    (r : IntermediateResult) (h : parseWithTenAPI now f = Except.ok r) :
    validResult r = true := by
  cases f with
  | netError e => simp [parseWithTenAPI] at h
  | response status data =>
    simp only [parseWithTenAPI] at h
    split_ifs at h with h1 h2
    cases h
    simp only [validResult, Bool.or_eq_true]
    left
    exact (Bool.and_eq_true _ _ |>.mp h2).2

theorem fallbackStep_ok (p : FetchOutcome → Except String IntermediateResult)
    (f : FetchOutcome) (rest : Except String IntermediateResult × Nat)
    (r : IntermediateResult) (h : (fallbackStep p f rest).1 = Except.ok r) :
    validResult r = true ∨ rest.1 = Except.ok r := by
  unfold fallbackStep at h
  cases hp : p f with
  | ok r0 =>
    rw [hp] at h
    by_cases hv : validResult r0 = true
    · simp only [hv, if_true] at h
      cases h
      exact Or.inl hv
    · simp only [Bool.not_eq_true] at hv
      simp only [hv, Bool.false_eq_true, if_false] at h
      exact Or.inr h
  | error e =>
    rw [hp] at h
    exact Or.inr h

/-! ## Claim C4: the fallback orchestrator -/

/-- Claim C4: the orchestrator tries douyin.wtf, jiexi.top, tenapi.cn in
that fixed order; a success short-circuits the chain (the invocation count
proves later adapters are not called), and only when all three fail does
it fail, with the single aggregated message. -/
theorem parseWithFallback_order (now : Nat) (f1 f2 f3 : FetchOutcome) :
    (∀ r, parseWithDouyinWTF now f1 = Except.ok r →
        parseWithFallback now f1 f2 f3 = (Except.ok r, 1)) ∧
    (∀ e r, parseWithDouyinWTF now f1 = Except.error e →
        parseWithJiexiTop now f2 = Except.ok r →
        parseWithFallback now f1 f2 f3 = (Except.ok r, 2)) ∧
    (∀ e1 e2 r, parseWithDouyinWTF now f1 = Except.error e1 →
        parseWithJiexiTop now f2 = Except.error e2 →
        parseWithTenAPI now f3 = Except.ok r →
        parseWithFallback now f1 f2 f3 = (Except.ok r, 3)) ∧
    (∀ e1 e2 e3, parseWithDouyinWTF now f1 = Except.error e1 →
        parseWithJiexiTop now f2 = Except.error e2 →
        parseWithTenAPI now f3 = Except.error e3 →
        parseWithFallback now f1 f2 f3 = (Except.error "所有解析源都失败了", 3)) := by
  refine ⟨?_, ?_, ?_, ?_⟩
  · intro r h
    have hv := parseWithDouyinWTF_ok_valid now f1 r h
    simp [parseWithFallback, fallbackStep, h, hv]
  · intro e r h1 h2
    have hv := parseWithJiexiTop_ok_valid now f2 r h2
    simp [parseWithFallback, fallbackStep, h1, h2, hv]
  · intro e1 e2 r h1 h2 h3
    have hv := parseWithTenAPI_ok_valid now f3 r h3
    simp [parseWithFallback, fallbackStep, h1, h2, h3, hv]
  · intro e1 e2 e3 h1 h2 h3
    simp [parseWithFallback, fallbackStep, h1, h2, h3]

/-- Claim C4 witness: the primary adapter times out, the first backup
answers a url — the result is the backup's and only two adapters ran. -/
theorem parseWithFallback_order_witness :
    parseWithFallback 7 (FetchOutcome.netError "timeout") jiexiFetch
        (FetchOutcome.netError "x") = (Except.ok jiexiResult, 2) :=
  (parseWithFallback_order 7 (FetchOutcome.netError "timeout") jiexiFetch
      (FetchOutcome.netError "x")).2.1 "timeout" jiexiResult rfl rfl

/-! ## Claim C9: the link classifier -/

/-- Claim C9: identifyLinkType is a total function (hence deterministic:
each input has exactly one link type), the patterns are tested in the
fixed insertion order with the first match winning, and a string matching
no pattern maps to unknown. -/
theorem identifyLinkType_first_match (url : String) :
    identifyLinkType url =
      (if shortPattern url then LinkType.short
       else if videoPattern url then LinkType.video
       else if notePattern url then LinkType.note
       else if userPattern url then LinkType.user
       else if discoverPattern url then LinkType.discover
       else if sharePattern url then LinkType.share
       else if iesPattern url then LinkType.ies
       else LinkType.unknown) ∧
    ∃! t, identifyLinkType url = t := by
  constructor
  · rfl
  · exact ⟨identifyLinkType url, rfl, fun y hy => hy.symm⟩

/-! ## Claim C6: the redirect resolver -/

/-- Claim C6: resolveRedirect is total (never throws).  A URL without the
short-link marker is returned unchanged with no network call; a URL with
it yields the final redirected URL on success and the original URL on any
network failure. -/
theorem resolveRedirect_total (url : String) (ro : RedirectOutcome) :
    (strIncludes url "v.douyin.com" = false → resolveRedirect url ro = (url, false)) ∧
    (strIncludes url "v.douyin.com" = true →
      (∀ fu, ro = RedirectOutcome.success fu → resolveRedirect url ro = (fu, true)) ∧
      (∀ e, ro = RedirectOutcome.failure e → resolveRedirect url ro = (url, true))) := by
  refine ⟨fun h => ?_, fun h => ⟨fun fu hf => ?_, fun e he => ?_⟩⟩
  · simp [resolveRedirect, h]
  · simp [resolveRedirect, h, hf]
  · simp [resolveRedirect, h, he]

/-- Claim C6 witness: a short link under simulated network failure comes
back unchanged, with the network having been attempted. -/
theorem resolveRedirect_total_witness :
    resolveRedirect "https://v.douyin.com/abc" (RedirectOutcome.failure "timeout") =
      ("https://v.douyin.com/abc", true) :=
  ((resolveRedirect_total "https://v.douyin.com/abc"
      (RedirectOutcome.failure "timeout")).2 (by decide)).2 "timeout" rfl

/-! ## Claim C5: user links are rejected before any adapter runs -/

/-- Claim C5: a URL classified as a user (profile-page) link makes the
entry point fail immediately with the explicit unsupported message
(wrapped by the pipeline prefix), with zero adapters invoked. -/
theorem user_link_rejected (url : String) (st : Settings) (env : Env)
    (h : identifyLinkType url = LinkType.user) :
    entryPoint url st env =
      (Except.error "抖音解析失败: 用户主页链接暂不支持批量下载，请提供具体视频链接", 0) := by
  unfold entryPoint routeStep
  rw [h]
  rfl

/-- Claim C5 witness: a profile-page URL is rejected whatever the network
would have answered. -/
theorem user_link_rejected_witness :
    entryPoint "https://www.douyin.com/user/MS4wLjABAAAA" {} failEnv =
      (Except.error "抖音解析失败: 用户主页链接暂不支持批量下载，请提供具体视频链接", 0) :=
  user_link_rejected "https://www.douyin.com/user/MS4wLjABAAAA" {} failEnv (by decide)

/-! ## Claim C1: no empty-file-list check at the entry point -/

/-- Claim C1 counterexample: resolution succeeds (the primary adapter
returns a video with no cover) but cover mode builds no file; the entry
point returns a manifest with an empty file list instead of raising. -/
theorem entry_empty_manifest_cex :
    entryPoint "https://www.douyin.com/video/123" { downloadType := some "cover" }
      videoOnlyEnv =
    (Except.ok { name := "抖音视频", files := [],
                 extra := { cover := none, author := "", duration := some 0,
                            platform := "douyin", type := "video" } }, 1) := rfl

/-- Claim C1 (amended): the entry point performs no empty-result check —
whenever routing succeeds it returns the built manifest, so an empty
built sequence yields a manifest with an empty file list rather than an
error; and the boundary condition of the claim is unreachable, because a
successful fallback resolution always carries a download URL or an image
list. -/
theorem entry_no_empty_check :
    (∀ (url : String) (st : Settings) (env : Env) (r : IntermediateResult) (n : Nat),
       routeStep url env = (Except.ok r, n) →
       buildDownloadFiles env.now r (jsOrStr st.downloadType "video") = [] →
       ∃ m, (entryPoint url st env).1 = Except.ok m ∧ m.files = []) ∧
    (∀ (now : Nat) (f1 f2 f3 : FetchOutcome) (r : IntermediateResult),
       (parseWithFallback now f1 f2 f3).1 = Except.ok r → validResult r = true) := by
  constructor
  · intro url st env r n h hempty
    refine ⟨{ name := jsOrStr r.title (s!"抖音内容_{env.now}"),
              files := buildDownloadFiles env.now r (jsOrStr st.downloadType "video"),
              extra := { cover := r.cover, author := r.author, duration := r.duration,
                         platform := "douyin", type := jsOrStr r.type "video" } }, ?_, hempty⟩
    unfold entryPoint
    rw [h]
  · intro now f1 f2 f3 r h
    unfold parseWithFallback at h
    rcases fallbackStep_ok _ _ _ _ h with hv | h
    · exact hv
    rcases fallbackStep_ok _ _ _ _ h with hv | h
    · exact hv
    rcases fallbackStep_ok _ _ _ _ h with hv | h
    · exact hv
    · exact absurd h (by simp)

/-- Claim C1 witness: the amended statement applied to the concrete
cover-mode run that produces an empty manifest. -/
theorem entry_no_empty_check_witness :
    ∃ m, (entryPoint "https://www.douyin.com/video/123" { downloadType := some "cover" }
        videoOnlyEnv).1 = Except.ok m ∧ m.files = [] :=
  entry_no_empty_check.1 "https://www.douyin.com/video/123"
    { downloadType := some "cover" } videoOnlyEnv
    { title := some "抖音视频", downloadUrl := some "https://cdn/x.mp4",
      author := "", duration := some 0, filename := some "douyin_0.mp4",
      type := some "video" } 1 rfl rfl

/-! ## Helper lemmas about sanitizeFilename -/

theorem replaceIllegal_no_illegal (l : List Char) :
    ∀ c ∈ replaceIllegal l, illegalChar c = false := by
  intro c hc
  simp only [replaceIllegal, List.mem_map] at hc
  obtain ⟨a, _, ha⟩ := hc
  cases hb : illegalChar a
  · rw [hb] at ha
    simp at ha
    rw [← ha]
    exact hb
  · rw [hb] at ha
    simp at ha
    rw [← ha]
    decide

theorem collapseWsGo_mem (c : Char) : ∀ (b : Bool) (l : List Char),
    c ∈ collapseWsGo b l → c = ' ' ∨ c ∈ l := by
  intro b l
  induction l generalizing b with
  | nil => intro hc; cases b <;> simp [collapseWsGo] at hc
  | cons a rest ih =>
    intro hc
    cases hja : jsWs a
    · simp only [collapseWsGo, hja, Bool.false_eq_true, if_false, List.mem_cons] at hc
      rcases hc with h | h
      · exact Or.inr (h ▸ List.mem_cons_self a rest)
      · rcases ih false h with h2 | h2
        · exact Or.inl h2
        · exact Or.inr (List.mem_cons_of_mem a h2)
    · cases b with
      | true =>
        simp only [collapseWsGo, hja, if_true] at hc
        rcases ih true hc with h2 | h2
        · exact Or.inl h2
        · exact Or.inr (List.mem_cons_of_mem a h2)
      | false =>
        simp only [collapseWsGo, hja, Bool.false_eq_true, if_false, if_true,
          List.mem_cons] at hc
        rcases hc with h | h
        · exact Or.inl h
        · rcases ih true h with h2 | h2
          · exact Or.inl h2
          · exact Or.inr (List.mem_cons_of_mem a h2)

theorem collapseWsGo_ws_space (c : Char) (hws : jsWs c = true) : ∀ (b : Bool) (l : List Char),
    c ∈ collapseWsGo b l → c = ' ' := by
  intro b l
  induction l generalizing b with
  | nil => intro hc; cases b <;> simp [collapseWsGo] at hc
  | cons a rest ih =>
    intro hc
    cases hja : jsWs a
    · simp only [collapseWsGo, hja, Bool.false_eq_true, if_false, List.mem_cons] at hc
      rcases hc with h | h
      · subst h
        rw [hja] at hws
        exact absurd hws (by decide)
      · exact ih false h
    · cases b with
      | true =>
        simp only [collapseWsGo, hja, if_true] at hc
        exact ih true hc
      | false =>
        simp only [collapseWsGo, hja, Bool.false_eq_true, if_false, if_true,
          List.mem_cons] at hc
        rcases hc with h | h
        · exact h
        · exact ih true h

theorem collapseWsGo_true_head : ∀ (l : List Char) (c : Char),
    (collapseWsGo true l).head? = some c → jsWs c = false := by
  intro l
  induction l with
  | nil => intro c hc; simp [collapseWsGo] at hc
  | cons a rest ih =>
    intro c hc
    simp only [collapseWsGo] at hc
    cases hja : jsWs a <;> rw [hja] at hc
    · simp only [Bool.false_eq_true, if_false, List.head?_cons, Option.some.injEq] at hc
      rw [← hc]
      exact hja
    · simp only [if_true] at hc
      exact ih c hc

theorem collapseWsGo_noAdj : ∀ (b : Bool) (l : List Char),
    noAdjWs (collapseWsGo b l) = true := by
  intro b l
  induction l generalizing b with
  | nil => cases b <;> rfl
  | cons a rest ih =>
    simp only [collapseWsGo]
    cases hja : jsWs a
    · simp only [Bool.false_eq_true, if_false]
      have h2 := ih false
      cases hX : collapseWsGo false rest with
      | nil => rfl
      | cons x xs =>
        rw [hX] at h2
        simp [noAdjWs, hja, h2]
    · cases b with
      | true => simpa using ih true
      | false =>
        simp only [if_true]
        have h2 := ih true
        cases hX : collapseWsGo true rest with
        | nil => rfl
        | cons x xs =>
          have hx : jsWs x = false := collapseWsGo_true_head rest x (by rw [hX]; rfl)
          rw [hX] at h2
          simp [noAdjWs, hx, h2]

theorem noAdjWs_tail (a : Char) (t : List Char) (h : noAdjWs (a :: t) = true) :
    noAdjWs t = true := by
  cases t with
  | nil => rfl
  | cons b t' => exact (Bool.and_eq_true _ _ |>.mp h).2

theorem noAdjWs_dropWhile (p : Char → Bool) : ∀ (l : List Char),
    noAdjWs l = true → noAdjWs (l.dropWhile p) = true := by
  intro l
  induction l with
  | nil => intro h; exact h
  | cons a t ih =>
    intro h
    rw [List.dropWhile_cons]
    split
    · exact ih (noAdjWs_tail a t h)
    · exact h

theorem head_dropWhile_not (p : Char → Bool) : ∀ (l : List Char) (c : Char),
    (l.dropWhile p).head? = some c → p c = false := by
  intro l
  induction l with
  | nil => intro c hc; simp at hc
  | cons a t ih =>
    intro c hc
    rw [List.dropWhile_cons] at hc
    by_cases hp : p a = true
    · rw [if_pos hp] at hc
      exact ih c hc
    · rw [if_neg hp] at hc
      simp only [List.head?_cons, Option.some.injEq] at hc
      rw [← hc]
      exact Bool.not_eq_true _ |>.mp hp

theorem trimEndJs_mem : ∀ (l : List Char) (c : Char), c ∈ trimEndJs l → c ∈ l := by
  intro l
  induction l with
  | nil => intro c hc; simp [trimEndJs] at hc
  | cons a t ih =>
    intro c hc
    simp only [trimEndJs] at hc
    cases hX : trimEndJs t with
    | nil =>
      rw [hX] at hc
      cases hja : jsWs a <;> rw [hja] at hc <;> simp at hc
      rw [hc]
      exact List.mem_cons_self a t
    | cons x xs =>
      rw [hX] at hc
      rcases List.mem_cons.mp hc with h | h
      · exact h ▸ List.mem_cons_self a t
      · exact List.mem_cons_of_mem a (ih c (hX ▸ h))

theorem trimEndJs_head : ∀ (l : List Char) (c : Char),
    (trimEndJs l).head? = some c → l.head? = some c := by
  intro l
  cases l with
  | nil => intro c hc; simp [trimEndJs] at hc
  | cons a t =>
    intro c hc
    simp only [trimEndJs] at hc
    cases hX : trimEndJs t with
    | nil =>
      rw [hX] at hc
      cases hja : jsWs a <;> rw [hja] at hc <;> simp at hc
      simp [hc]
    | cons x xs =>
      rw [hX] at hc
      simpa using hc

theorem trimEndJs_noAdj : ∀ (l : List Char), noAdjWs l = true → noAdjWs (trimEndJs l) = true := by
  intro l
  induction l with
  | nil => intro h; exact h
  | cons a t ih =>
    intro h
    simp only [trimEndJs]
    cases hX : trimEndJs t with
    | nil =>
      cases hja : jsWs a <;> rfl
    | cons x xs =>
      cases t with
      | nil => simp [trimEndJs] at hX
      | cons b t' =>
        have hbx : b = x := by
          have := trimEndJs_head (b :: t') x (by rw [hX]; rfl)
          simpa using this
        have h1 := (Bool.and_eq_true _ _).mp h
        have h2 := ih h1.2
        rw [hX] at h2
        subst hbx
        simp [noAdjWs, h1.1, h2]

theorem trimEndJs_last : ∀ (l : List Char) (c : Char),
    (trimEndJs l).getLast? = some c → jsWs c = false := by
  intro l
  induction l with
  | nil => intro c hc; simp [trimEndJs] at hc
  | cons a t ih =>
    intro c hc
    simp only [trimEndJs] at hc
    cases hX : trimEndJs t with
    | nil =>
      rw [hX] at hc
      cases hja : jsWs a <;> rw [hja] at hc <;> simp at hc
      rw [← hc]
      exact hja
    | cons x xs =>
      rw [hX] at hc
      rw [List.getLast?_cons_cons] at hc
      exact ih c (hX ▸ hc)

theorem noAdjWs_take : ∀ (l : List Char) (n : Nat),
    noAdjWs l = true → noAdjWs (l.take n) = true := by
  intro l
  induction l with
  | nil => intro n h; simpa using h
  | cons a t ih =>
    intro n h
    cases n with
    | zero => rfl
    | succ m =>
      rw [List.take_succ_cons]
      cases t with
      | nil => simpa using h
      | cons b t' =>
        cases m with
        | zero => rfl
        | succ k =>
          rw [List.take_succ_cons]
          have h1 := (Bool.and_eq_true _ _).mp h
          have h2 := ih (k + 1) h1.2
          rw [List.take_succ_cons] at h2
          simp [noAdjWs, h1.1, h2]

theorem head_take (l : List Char) (n : Nat) (c : Char)
    (h : (l.take n).head? = some c) : l.head? = some c := by
  cases n with
  | zero => simp at h
  | succ m =>
    cases l with
    | nil => simp at h
    | cons a t =>
      rw [List.take_succ_cons] at h
      simpa using h

/-! ## Claim C2: sanitizeFilename -/

/-- Claim C2 counterexample: the input of 199 letters, a space and a
letter is trimmed before the 200-character truncation, so the output ends
in a whitespace character, contradicting the no-trailing-whitespace part
of the claim. -/
theorem sanitize_trailing_space_cex :
    (sanitizeFilename truncCexInput).toList.getLast? = some ' ' ∧ jsWs ' ' = true := by
  decide

/-- Claim C2 (amended): every output of sanitizeFilename has at most 200
characters, no illegal character, only plain spaces as whitespace with no
two adjacent (whitespace runs collapsed), and no leading whitespace; it
has no trailing whitespace whenever the trimmed string fits in 200
characters (the truncation, which runs after trimming, may otherwise cut
directly after an internal space). -/
theorem sanitizeFilename_props (s : String) :
    (sanitizeFilename s).toList.length ≤ 200 ∧
    (∀ c ∈ (sanitizeFilename s).toList, illegalChar c = false) ∧
    (∀ c ∈ (sanitizeFilename s).toList, jsWs c = true → c = ' ') ∧
    noAdjWs (sanitizeFilename s).toList = true ∧
    (∀ c, (sanitizeFilename s).toList.head? = some c → jsWs c = false) ∧
    ((jsTrim (collapseWs (replaceIllegal s.toList))).length ≤ 200 →
      ∀ c, (sanitizeFilename s).toList.getLast? = some c → jsWs c = false) := by
  have hlist : (sanitizeFilename s).toList =
      (jsTrim (collapseWs (replaceIllegal s.toList))).take 200 := rfl
  have hmem : ∀ c ∈ (sanitizeFilename s).toList, c ∈ collapseWs (replaceIllegal s.toList) := by
    intro c hc
    rw [hlist] at hc
    have h1 := List.take_subset 200 _ hc
    have h2 := trimEndJs_mem _ c h1
    exact (List.dropWhile_sublist jsWs).subset h2
  refine ⟨?_, ?_, ?_, ?_, ?_, ?_⟩
  · rw [hlist, List.length_take]
    exact min_le_left _ _
  · intro c hc
    rcases collapseWsGo_mem c false _ (hmem c hc) with h | h
    · rw [h]; decide
    · exact replaceIllegal_no_illegal _ c h
  · intro c hc hws
    exact collapseWsGo_ws_space c hws false _ (hmem c hc)
  · rw [hlist]
    exact noAdjWs_take _ 200
      (trimEndJs_noAdj _ (noAdjWs_dropWhile jsWs _ (collapseWsGo_noAdj false _)))
  · intro c hc
    rw [hlist] at hc
    exact head_dropWhile_not jsWs _ c (trimEndJs_head _ c (head_take _ 200 c hc))
  · intro hlen c hc
    rw [hlist, List.take_of_length_le hlen] at hc
    exact trimEndJs_last _ c hc

/-- Claim C2 witness: the amended statement instantiated on a messy
input, discharging the membership, head and length hypotheses there. -/
theorem sanitizeFilename_props_witness :
    jsWs 'c' = false ∧ ' ' = ' ' := by
  have h := sanitizeFilename_props "  a\t\tb<c  "
  refine ⟨h.2.2.2.2.2 (by decide) 'c' (by decide), ?_⟩
  exact h.2.2.1 ' ' (by decide) (by decide)

end GopeedDouyin
